import Mathlib

/-!
Shallow embedding of `src/ui/file_browser_colored.py` (RebelCAD colored file
browser) and proofs about its filter predicate, its color-lookup `data`
override, and its file-system operations (create / rename / delete /
open-in-explorer / set-root-path).

Modelling conventions:
* The file system is a pair of path lists (`files`, `dirs`); the Python
  `os` primitives used by the widget are modelled as pure functions on it.
* User/dialog inputs (`QInputDialog.getText` results, `QMessageBox.question`
  replies) are explicit parameters.
* Each operation returns an `OpResult` recording the final file system, the
  modal dialogs it showed (in order), the Qt signals it emitted (in order),
  the mutating OS primitives it attempted (in order), and `raised`, the
  exception escaping to the caller (always `none`: the Python bodies wrap
  every fallible call in `try/except`).  Whether a given OS primitive raises
  is an oracle parameter `raise? : Option String` carrying the exception text.
* Python `str.lower` is modelled characterwise via `Char.toLower` (an ASCII
  model of case folding).
-/

/-- Model of the on-disk state seen through `os.path` / `os` calls:
the set of existing regular-file paths and directory paths. -/
structure FileSystem where
  files : List String
  dirs : List String
deriving DecidableEq

/-- `os.path.exists`: the path is a file or a directory. -/
def FileSystem.pathExists (fs : FileSystem) (p : String) : Bool :=
  fs.files.contains p || fs.dirs.contains p

/-- `os.path.isdir`. -/
def FileSystem.isdir (fs : FileSystem) (p : String) : Bool :=
  fs.dirs.contains p

/-- Effect of `open(p, 'w')` creating a new empty file. -/
def FileSystem.createFile (fs : FileSystem) (p : String) : FileSystem :=
  { fs with files := p :: fs.files }

/-- Effect of `os.makedirs(p)` (the model tracks the target path). -/
def FileSystem.makedirs (fs : FileSystem) (p : String) : FileSystem :=
  { fs with dirs := p :: fs.dirs }

/-- Effect of `os.rename(old, new)`: the entry moves, keeping its kind. -/
def FileSystem.renamePath (fs : FileSystem) (old new : String) : FileSystem :=
  if fs.files.contains old then
    { fs with files := new :: fs.files.erase old }
  else if fs.dirs.contains old then
    { fs with dirs := new :: fs.dirs.erase old }
  else fs

/-- Effect of `os.remove(p)`. -/
def FileSystem.removeFile (fs : FileSystem) (p : String) : FileSystem :=
  { fs with files := fs.files.erase p }

/-- Effect of `shutil.rmtree(p)`: the directory and everything below it go. -/
def FileSystem.rmtree (fs : FileSystem) (p : String) : FileSystem :=
  { files := fs.files.filter (fun q => !(q.startsWith (p ++ "/"))),
    dirs := (fs.dirs.erase p).filter (fun q => !(q.startsWith (p ++ "/"))) }

/-- `os.path.join(parent, name)` (POSIX model, relative `name`). -/
def pathJoin (parent name : String) : String :=
  if parent = "" then name else parent ++ "/" ++ name

/-- Split a character list at every occurrence of `sep`
(Python `str.split(sep)` semantics; the result is always nonempty). -/
def splitOnChar (sep : Char) : List Char → List (List Char)
  | [] => [[]]
  | c :: rest =>
    match splitOnChar sep rest with
    | [] => [[]]
    | g :: gs => if c = sep then [] :: g :: gs else (c :: g) :: gs

/-- `os.path.basename` (POSIX model): the part after the last separator. -/
def basename (p : String) : String :=
  String.mk ((splitOnChar '/' p.data).getLastD [])

/-- `os.path.dirname` (POSIX model): the part before the last separator. -/
def dirname (p : String) : String :=
  String.mk (List.intercalate ['/'] (splitOnChar '/' p.data).dropLast)

/-- Python `str.lower`, characterwise (ASCII model). -/
def pyLower (s : String) : String :=
  ⟨s.data.map Char.toLower⟩

/-- Helper for Python's `needle in hay` on lists of characters. -/
def containsSub (needle : List Char) : List Char → Bool
  | [] => needle.isEmpty
  | c :: rest => needle.isPrefixOf (c :: rest) || containsSub needle rest

/-- Python's substring test `needle in hay`. -/
def pyIn (needle hay : String) : Bool :=
  containsSub needle.data hay.data

/-- The `QMessageBox` buttons used by the widget. -/
inductive MB
  | yes
  | no
deriving DecidableEq

/-- A `QMessageBox.question` call: title, message, offered buttons,
and the default button. -/
structure QuestionInfo where
  title : String
  message : String
  buttons : List MB
  defaultButton : MB
deriving DecidableEq

/-- A modal dialog shown by an operation. -/
inductive Dialog
  | warning (title message : String)
  | critical (title message : String)
  | question (q : QuestionInfo)
deriving DecidableEq

/-- The `pyqtSignal`s of `CADFileBrowser`, with their payloads. -/
inductive Signal
  | file_selected (path : String)
  | directory_changed (path : String)
  | file_created (path : String)
  | file_deleted (path : String)
  | file_renamed (oldPath newPath : String)
deriving DecidableEq

/-- A mutating / external OS primitive attempted by an operation. -/
inductive FsCall
  | startfile (path : String)
  | subprocessCall (args : List String)
  | createFile (path : String)
  | makedirs (path : String)
  | rename (oldPath newPath : String)
  | removeFile (path : String)
  | rmtree (path : String)
deriving DecidableEq

/-- Outcome of one operation: resulting file system, dialogs shown,
signals emitted, OS primitives attempted (all in order), and the exception
propagated to the caller, if any. -/
structure OpResult where
  fs : FileSystem
  dialogs : List Dialog
  signals : List Signal
  calls : List FsCall
  raised : Option String
deriving DecidableEq

/-- `platform.system()` values distinguished by `_open_in_explorer`. -/
inductive Platform
  | windows
  | darwin
  | linux
deriving DecidableEq

namespace CADFileBrowser

/-- The OS primitive `_open_in_explorer` invokes on each platform:
`os.startfile` on Windows, `subprocess.call(["open", path])` on macOS,
`subprocess.call(["xdg-open", path])` elsewhere. -/
def explorerCall (platform : Platform) (path : String) : FsCall :=
  match platform with
  | Platform.windows => FsCall.startfile path
  | Platform.darwin => FsCall.subprocessCall ["open", path]
  | Platform.linux => FsCall.subprocessCall ["xdg-open", path]

/-- Embedding of `CADFileBrowser._open_in_explorer`.  `raise?` is the
exception (if any) raised by the `os.startfile` / `subprocess.call`
primitive; the `try/except` turns it into a critical dialog. -/
def open_in_explorer (fs : FileSystem) (platform : Platform) (path : String)
    (raise? : Option String) : OpResult :=
  let call := explorerCall platform path
  match raise? with
  | some e =>
      { fs := fs,
        dialogs := [Dialog.critical "Error"
          ("Failed to open path in explorer: " ++ path ++ "\n\n" ++ e)],
        signals := [], calls := [call], raised := none }
  | none =>
      { fs := fs, dialogs := [], signals := [], calls := [call],
        raised := none }

/-- Embedding of `CADFileBrowser._create_new_file` from the point where the
parent directory is known.  `fileName`/`ok` are the `QInputDialog.getText`
result; `raise?` is the exception (if any) raised by `open(file_path, 'w')`. -/
def create_new_file (fs : FileSystem) (parentPath : String)
    (fileName : String) (ok : Bool) (raise? : Option String) : OpResult :=
  if ok = true ∧ fileName ≠ "" then
    let filePath := pathJoin parentPath fileName
    if fs.pathExists filePath then
      { fs := fs,
        dialogs := [Dialog.warning "File Exists"
          ("The file already exists: " ++ filePath)],
        signals := [], calls := [], raised := none }
    else
      match raise? with
      | some e =>
          { fs := fs,
            dialogs := [Dialog.critical "Error"
              ("Failed to create file: " ++ filePath ++ "\n\n" ++ e)],
            signals := [], calls := [FsCall.createFile filePath],
            raised := none }
      | none =>
          { fs := fs.createFile filePath, dialogs := [],
            signals := [Signal.file_created filePath],
            calls := [FsCall.createFile filePath], raised := none }
  else
    { fs := fs, dialogs := [], signals := [], calls := [], raised := none }

/-- Embedding of `CADFileBrowser._create_new_folder` from the point where the
parent directory is known.  Unlike file creation, no signal is emitted on
success. -/
def create_new_folder (fs : FileSystem) (parentPath : String)
    (folderName : String) (ok : Bool) (raise? : Option String) : OpResult :=
  if ok = true ∧ folderName ≠ "" then
    let folderPath := pathJoin parentPath folderName
    if fs.pathExists folderPath then
      { fs := fs,
        dialogs := [Dialog.warning "Folder Exists"
          ("The folder already exists: " ++ folderPath)],
        signals := [], calls := [], raised := none }
    else
      match raise? with
      | some e =>
          { fs := fs,
            dialogs := [Dialog.critical "Error"
              ("Failed to create folder: " ++ folderPath ++ "\n\n" ++ e)],
            signals := [], calls := [FsCall.makedirs folderPath],
            raised := none }
      | none =>
          { fs := fs.makedirs folderPath, dialogs := [], signals := [],
            calls := [FsCall.makedirs folderPath], raised := none }
  else
    { fs := fs, dialogs := [], signals := [], calls := [], raised := none }

/-- Embedding of `CADFileBrowser._rename_item`.  `newName`/`ok` are the
`QInputDialog.getText` result; `raise?` is the exception (if any) raised by
`os.rename`. -/
def rename_item (fs : FileSystem) (path : String)
    (newName : String) (ok : Bool) (raise? : Option String) : OpResult :=
  let currentName := basename path
  if ok = true ∧ newName ≠ "" ∧ newName ≠ currentName then
    let newPath := pathJoin (dirname path) newName
    if fs.pathExists newPath then
      { fs := fs,
        dialogs := [Dialog.warning "Path Exists"
          ("The path already exists: " ++ newPath)],
        signals := [], calls := [], raised := none }
    else
      match raise? with
      | some e =>
          { fs := fs,
            dialogs := [Dialog.critical "Error"
              ("Failed to rename path: " ++ path ++ "\n\n" ++ e)],
            signals := [], calls := [FsCall.rename path newPath],
            raised := none }
      | none =>
          { fs := fs.renamePath path newPath, dialogs := [],
            signals := [Signal.file_renamed path newPath],
            calls := [FsCall.rename path newPath], raised := none }
  else
    { fs := fs, dialogs := [], signals := [], calls := [], raised := none }

/-- The confirmation dialog built by `CADFileBrowser._delete_item`:
Yes/No buttons, default `No`. -/
def deleteQuestion (fs : FileSystem) (path : String) : QuestionInfo :=
  { title := "Confirm Delete",
    message :=
      if fs.isdir path then
        "Are you sure you want to delete the folder and all its contents?\n\n"
          ++ path
      else
        "Are you sure you want to delete the file?\n\n" ++ path,
    buttons := [MB.yes, MB.no],
    defaultButton := MB.no }

/-- Embedding of `CADFileBrowser._delete_item`.  `reply` is the user's
answer to the confirmation dialog; `raise?` is the exception (if any)
raised by `shutil.rmtree` / `os.remove`. -/
def delete_item (fs : FileSystem) (path : String) (reply : MB)
    (raise? : Option String) : OpResult :=
  let q := deleteQuestion fs path
  if reply = MB.yes then
    let call := if fs.isdir path then FsCall.rmtree path
                else FsCall.removeFile path
    match raise? with
    | some e =>
        { fs := fs,
          dialogs := [Dialog.question q,
            Dialog.critical "Error"
              ("Failed to delete path: " ++ path ++ "\n\n" ++ e)],
          signals := [], calls := [call], raised := none }
    | none =>
        let fs' := if fs.isdir path then fs.rmtree path
                   else fs.removeFile path
        { fs := fs', dialogs := [Dialog.question q],
          signals := [Signal.file_deleted path], calls := [call],
          raised := none }
  else
    { fs := fs, dialogs := [Dialog.question q], signals := [], calls := [],
      raised := none }

/-- The widget state touched by `set_root_path`: `current_path`, the
model's root path, and the file watcher's directory set. -/
structure BrowserState where
  current_path : Option String
  modelRoot : Option String
  watchedDirs : List String
deriving DecidableEq

/-- The directories below `path` that `os.walk(path)` visits. -/
def subdirsUnder (fs : FileSystem) (path : String) : List String :=
  fs.dirs.filter (fun d => d.startsWith (path ++ "/"))

/-- Embedding of `CADFileBrowser.set_root_path`: result state, emitted
signals, and logged error lines. -/
def set_root_path (fs : FileSystem) (st : BrowserState) (path : String) :
    BrowserState × List Signal × List String :=
  if ¬ fs.pathExists path then
    (st, [], ["Path does not exist: " ++ path])
  else
    ({ current_path := some path,
       modelRoot := some path,
       watchedDirs := path :: subdirsUnder fs path },
     [Signal.directory_changed path], [])

end CADFileBrowser

/-- Qt item-data roles distinguished by the proxy model's `data` override. -/
inductive Role
  | displayRole
  | foregroundRole
  | otherRole (n : Nat)
deriving DecidableEq

/-- A row of the source model as seen by `filterAcceptsRow`: whether
`sourceModel.isDir(index)` holds and the `sourceModel.fileName(index)`. -/
structure SourceRow where
  isDir : Bool
  fileName : String
deriving DecidableEq

namespace CADFileFilterProxyModel

/-- Embedding of `CADFileFilterProxyModel.filterAcceptsRow`:
`filterText` is the filter regexp's pattern, the row supplies
`isDir` and the file name. -/
def filterAcceptsRow (filterText : String) (row : SourceRow) : Bool :=
  if row.isDir then true
  else
    let filter_text := pyLower filterText
    if filter_text = "" then true
    else
      let file_name := pyLower row.fileName
      pyIn filter_text file_name

/-- The environment of one `CADFileFilterProxyModel.data` call: the
proxy-to-source index map, whether the source model has a `filePath`
attribute, the source model's `filePath`, and the
`QSortFilterProxyModel.data` base-class result.  `ι` is the index type and
`V` the variant (result) type. -/
structure DataEnv (ι V : Type) where
  mapToSource : ι → ι
  hasFilePathAttr : Bool
  filePath : ι → String
  baseData : ι → Role → V

/-- Embedding of `CADFileFilterProxyModel.data`.  `fcm` is
`self.file_color_manager` viewed as its `get_foreground_role` lookup
(`none` when no manager is set). -/
def data {ι V : Type} (env : DataEnv ι V) (fcm : Option (String → V))
    (index : ι) (role : Role) : V :=
  match fcm with
  | some mgr =>
      if role = Role.foregroundRole then
        if env.hasFilePathAttr then
          mgr (env.filePath (env.mapToSource index))
        else env.baseData index role
      else env.baseData index role
  | none => env.baseData index role

end CADFileFilterProxyModel

/-- Spec-level predicate for the filter ("substring match,
case-insensitive"): the filter pattern occurs as a contiguous substring of
the file name once both are lowercased. -/
def SpecAcceptsFile (pat name : String) : Prop :=
  (pyLower pat).data <:+: (pyLower name).data

theorem containsSub_iff_infix (needle hay : List Char) :
    containsSub needle hay = true ↔ needle <:+: hay := by
  induction hay with
  | nil => simp [containsSub, List.isEmpty_iff, List.infix_nil]
  | cons c rest ih =>
      simp [containsSub, Bool.or_eq_true, List.isPrefixOf_iff_prefix, ih,
        List.infix_cons_iff]

/-- C3: `CADFileFilterProxyModel.filterAcceptsRow` returns `True` for every
row whose source index is a directory, regardless of the filter text. -/
theorem filterAcceptsRow_accepts_dirs (filterText : String) (row : SourceRow)
    (hdir : row.isDir = true) :
    CADFileFilterProxyModel.filterAcceptsRow filterText row = true := by
  simp [CADFileFilterProxyModel.filterAcceptsRow, hdir]

/-- Witness for the directory-acceptance theorem at a concrete row. -/
theorem filterAcceptsRow_accepts_dirs_witness :
    (SourceRow.mk true "models").isDir = true ∧
    CADFileFilterProxyModel.filterAcceptsRow "zzz" (SourceRow.mk true "models")
      = true :=
  ⟨rfl, filterAcceptsRow_accepts_dirs "zzz" (SourceRow.mk true "models") rfl⟩

/-- C4: for non-directory rows, `filterAcceptsRow` accepts iff the filter
pattern occurs as a substring of the file name compared case-insensitively;
the result is invariant under case variants of the filter text and of the
file name; and the empty filter accepts every row. -/
theorem filterAcceptsRow_case_insensitive (row : SourceRow)
    (ft ft' name name' : String)
    (hft : pyLower ft = pyLower ft')
    (hname : pyLower name = pyLower name') :
    (CADFileFilterProxyModel.filterAcceptsRow ft (SourceRow.mk false name)
       = true ↔ SpecAcceptsFile ft name)
    ∧ CADFileFilterProxyModel.filterAcceptsRow ft (SourceRow.mk false name)
        = CADFileFilterProxyModel.filterAcceptsRow ft' (SourceRow.mk false name')
    ∧ CADFileFilterProxyModel.filterAcceptsRow "" row = true := by
  have h0 : pyLower "" = "" := by decide
  refine ⟨?_, ?_, ?_⟩
  · by_cases h : pyLower ft = ""
    · have hd : (pyLower ft).data = [] := by rw [h]
      simp [CADFileFilterProxyModel.filterAcceptsRow, h, SpecAcceptsFile, hd]
    · simp [CADFileFilterProxyModel.filterAcceptsRow, h, SpecAcceptsFile,
        pyIn, containsSub_iff_infix]
  · simp only [CADFileFilterProxyModel.filterAcceptsRow, hft, hname]
  · rcases row with ⟨d, n⟩
    cases d <;> simp [CADFileFilterProxyModel.filterAcceptsRow, h0]

/-- Witness for the case-insensitive-substring theorem at concrete strings. -/
theorem filterAcceptsRow_case_insensitive_witness :
    (CADFileFilterProxyModel.filterAcceptsRow "AbC"
        (SourceRow.mk false "XaBcY.stp") = true
       ↔ SpecAcceptsFile "AbC" "XaBcY.stp")
    ∧ CADFileFilterProxyModel.filterAcceptsRow "AbC"
        (SourceRow.mk false "XaBcY.stp")
        = CADFileFilterProxyModel.filterAcceptsRow "aBc"
            (SourceRow.mk false "xabcy.STP")
    ∧ CADFileFilterProxyModel.filterAcceptsRow "" (SourceRow.mk true "any")
        = true :=
  filterAcceptsRow_case_insensitive (SourceRow.mk true "any") "AbC" "aBc"
    "XaBcY.stp" "xabcy.STP" (by decide) (by decide)

/-- C7: with a color manager set (and the source model exposing `filePath`,
as `QFileSystemModel` does), `data` answers the foreground role with exactly
the manager's `get_foreground_role` value at the file path of the mapped
source index, and answers every other role with the base-class result. -/
theorem data_foreground_lookup {ι V : Type}
    (env : CADFileFilterProxyModel.DataEnv ι V) (mgr : String → V) (index : ι)
    (hattr : env.hasFilePathAttr = true) :
    CADFileFilterProxyModel.data env (some mgr) index Role.foregroundRole
      = mgr (env.filePath (env.mapToSource index))
    ∧ ∀ role : Role, role ≠ Role.foregroundRole →
        CADFileFilterProxyModel.data env (some mgr) index role
          = env.baseData index role := by
  constructor
  · simp [CADFileFilterProxyModel.data, hattr]
  · intro role hrole
    simp [CADFileFilterProxyModel.data, hrole]

/-- Witness for the `data` theorem at a concrete environment and index. -/
theorem data_foreground_lookup_witness :
    CADFileFilterProxyModel.data
        (CADFileFilterProxyModel.DataEnv.mk (fun n => n + 1) true toString
          (fun n _ => n))
        (some String.length) (3 : Nat) Role.foregroundRole = 1
    ∧ CADFileFilterProxyModel.data
        (CADFileFilterProxyModel.DataEnv.mk (fun n => n + 1) true toString
          (fun n _ => n))
        (some String.length) (3 : Nat) Role.displayRole = 3 := by
  have h := data_foreground_lookup
    (CADFileFilterProxyModel.DataEnv.mk (fun (n : Nat) => n + 1) true toString
      (fun (n : Nat) (_ : Role) => (n : Nat)))
    String.length 3 rfl
  exact ⟨by rw [h.1]; decide, by rw [h.2 Role.displayRole (by simp)]⟩

/-- C1: when the target path already exists, `_create_new_file` and
`_create_new_folder` show a warning dialog and return: the file system is
unchanged, no OS primitive is attempted, no signal is emitted, and nothing
propagates. -/
theorem create_refuses_existing (fs : FileSystem) (parent name : String)
    (r : Option String) (hname : name ≠ "")
    (hex : fs.pathExists (pathJoin parent name) = true) :
    CADFileBrowser.create_new_file fs parent name true r =
      OpResult.mk fs
        [Dialog.warning "File Exists"
          ("The file already exists: " ++ pathJoin parent name)]
        [] [] none
    ∧ CADFileBrowser.create_new_folder fs parent name true r =
      OpResult.mk fs
        [Dialog.warning "Folder Exists"
          ("The folder already exists: " ++ pathJoin parent name)]
        [] [] none := by
  constructor
  · simp [CADFileBrowser.create_new_file, hname, hex]
  · simp [CADFileBrowser.create_new_folder, hname, hex]

/-- Witness for the creation-refusal theorem at a concrete file system. -/
theorem create_refuses_existing_witness :
    ("a.stp" : String) ≠ ""
    ∧ (FileSystem.mk ["proj/a.stp"] ["proj"]).pathExists
        (pathJoin "proj" "a.stp") = true
    ∧ CADFileBrowser.create_new_file (FileSystem.mk ["proj/a.stp"] ["proj"])
        "proj" "a.stp" true none =
      OpResult.mk (FileSystem.mk ["proj/a.stp"] ["proj"])
        [Dialog.warning "File Exists"
          ("The file already exists: " ++ pathJoin "proj" "a.stp")]
        [] [] none :=
  ⟨by decide, by decide,
    (create_refuses_existing (FileSystem.mk ["proj/a.stp"] ["proj"]) "proj"
      "a.stp" none (by decide) (by decide)).1⟩

/-- C2 counterexample: a rename request whose entered name equals the
current name has a new path that already exists, yet `_rename_item` shows
no warning dialog at all (the `new_name != current_name` guard returns
first). -/
theorem rename_item_same_name_no_dialog :
    (FileSystem.mk ["proj/a.stp"] []).pathExists
        (pathJoin (dirname "proj/a.stp") "a.stp") = true
    ∧ (CADFileBrowser.rename_item (FileSystem.mk ["proj/a.stp"] [])
        "proj/a.stp" "a.stp" true none).dialogs = [] := by
  constructor <;> decide

/-- C2 (amended): when the entered name is accepted, nonempty, and differs
from the current name, and the new path already exists, `_rename_item`
shows a warning dialog and returns with the file system unchanged, no
rename attempted, and no `file_renamed` signal; when the entered name
equals the current name, the request is ignored with no dialog, no change,
and no signal. -/
theorem rename_refuses_existing (fs : FileSystem) (path newName : String)
    (r : Option String) (hname : newName ≠ "")
    (hdiff : newName ≠ basename path)
    (hex : fs.pathExists (pathJoin (dirname path) newName) = true) :
    CADFileBrowser.rename_item fs path newName true r =
      OpResult.mk fs
        [Dialog.warning "Path Exists"
          ("The path already exists: " ++ pathJoin (dirname path) newName)]
        [] [] none
    ∧ ∀ r' : Option String,
        CADFileBrowser.rename_item fs path (basename path) true r' =
          OpResult.mk fs [] [] [] none := by
  constructor
  · simp [CADFileBrowser.rename_item, hname, hdiff, hex]
  · intro r'
    simp [CADFileBrowser.rename_item]

/-- Witness for the amended rename-refusal theorem. -/
theorem rename_refuses_existing_witness :
    ("b.stp" : String) ≠ ""
    ∧ ("b.stp" : String) ≠ basename "proj/a.stp"
    ∧ (FileSystem.mk ["proj/a.stp", "proj/b.stp"] []).pathExists
        (pathJoin (dirname "proj/a.stp") "b.stp") = true
    ∧ CADFileBrowser.rename_item
        (FileSystem.mk ["proj/a.stp", "proj/b.stp"] []) "proj/a.stp" "b.stp"
        true none =
      OpResult.mk (FileSystem.mk ["proj/a.stp", "proj/b.stp"] [])
        [Dialog.warning "Path Exists"
          ("The path already exists: "
            ++ pathJoin (dirname "proj/a.stp") "b.stp")]
        [] [] none :=
  ⟨by decide, by decide, by decide,
    (rename_refuses_existing (FileSystem.mk ["proj/a.stp", "proj/b.stp"] [])
      "proj/a.stp" "b.stp" none (by decide) (by decide) (by decide)).1⟩

/-- C5: for every file-system operation, an exception raised by the
underlying OS call is caught inside the operation (`raised = none`),
reported via a modal critical dialog, never retried (the primitive appears
exactly once in `calls`), and no signal is emitted. -/
theorem fs_exceptions_caught (fs : FileSystem) (platform : Platform)
    (parent name path newName e : String) (hname : name ≠ "")
    (hnew : fs.pathExists (pathJoin parent name) = false)
    (hrname : newName ≠ "") (hrdiff : newName ≠ basename path)
    (hrnew : fs.pathExists (pathJoin (dirname path) newName) = false) :
    CADFileBrowser.open_in_explorer fs platform path (some e) =
      OpResult.mk fs
        [Dialog.critical "Error"
          ("Failed to open path in explorer: " ++ path ++ "\n\n" ++ e)]
        [] [CADFileBrowser.explorerCall platform path] none
    ∧ CADFileBrowser.create_new_file fs parent name true (some e) =
      OpResult.mk fs
        [Dialog.critical "Error"
          ("Failed to create file: " ++ pathJoin parent name ++ "\n\n" ++ e)]
        [] [FsCall.createFile (pathJoin parent name)] none
    ∧ CADFileBrowser.create_new_folder fs parent name true (some e) =
      OpResult.mk fs
        [Dialog.critical "Error"
          ("Failed to create folder: " ++ pathJoin parent name ++ "\n\n" ++ e)]
        [] [FsCall.makedirs (pathJoin parent name)] none
    ∧ CADFileBrowser.rename_item fs path newName true (some e) =
      OpResult.mk fs
        [Dialog.critical "Error"
          ("Failed to rename path: " ++ path ++ "\n\n" ++ e)]
        [] [FsCall.rename path (pathJoin (dirname path) newName)] none
    ∧ CADFileBrowser.delete_item fs path MB.yes (some e) =
      OpResult.mk fs
        [Dialog.question (CADFileBrowser.deleteQuestion fs path),
          Dialog.critical "Error"
            ("Failed to delete path: " ++ path ++ "\n\n" ++ e)]
        []
        [if fs.isdir path then FsCall.rmtree path else FsCall.removeFile path]
        none := by
  refine ⟨?_, ?_, ?_, ?_, ?_⟩
  · simp [CADFileBrowser.open_in_explorer]
  · simp [CADFileBrowser.create_new_file, hname, hnew]
  · simp [CADFileBrowser.create_new_folder, hname, hnew]
  · simp [CADFileBrowser.rename_item, hrname, hrdiff, hrnew]
  · simp [CADFileBrowser.delete_item]

/-- Witness for the exception-catching theorem: a failing file creation is
caught, reported once, not retried, and emits nothing. -/
theorem fs_exceptions_caught_witness :
    (CADFileBrowser.create_new_file (FileSystem.mk [] ["proj"]) "proj"
        "new.stp" true (some "boom")).raised = none
    ∧ (CADFileBrowser.create_new_file (FileSystem.mk [] ["proj"]) "proj"
        "new.stp" true (some "boom")).dialogs =
      [Dialog.critical "Error"
        ("Failed to create file: " ++ pathJoin "proj" "new.stp"
          ++ "\n\n" ++ "boom")]
    ∧ (CADFileBrowser.create_new_file (FileSystem.mk [] ["proj"]) "proj"
        "new.stp" true (some "boom")).signals = []
    ∧ (CADFileBrowser.create_new_file (FileSystem.mk [] ["proj"]) "proj"
        "new.stp" true (some "boom")).calls =
      [FsCall.createFile (pathJoin "proj" "new.stp")] := by
  have h := fs_exceptions_caught (FileSystem.mk [] ["proj"]) Platform.linux
    "proj" "new.stp" "proj/x.stp" "y.stp" "boom" (by decide) (by decide)
    (by decide) (by decide) (by decide)
  rw [h.2.1]
  exact ⟨rfl, rfl, rfl, rfl⟩

/-- C6: signal emission is exactly: `file_created(path)` on successful file
creation, `file_renamed(old, new)` on successful rename, `file_deleted(path)`
on successful deletion, and nothing when the operation is rejected or
fails. -/
theorem signals_characterised (fs : FileSystem)
    (parent name path newName : String) (ok : Bool) (reply : MB)
    (r : Option String) :
    (CADFileBrowser.create_new_file fs parent name ok r).signals =
      (if ok = true ∧ name ≠ ""
          ∧ fs.pathExists (pathJoin parent name) = false ∧ r = none
       then [Signal.file_created (pathJoin parent name)] else [])
    ∧ (CADFileBrowser.rename_item fs path newName ok r).signals =
      (if ok = true ∧ newName ≠ "" ∧ newName ≠ basename path
          ∧ fs.pathExists (pathJoin (dirname path) newName) = false ∧ r = none
       then [Signal.file_renamed path (pathJoin (dirname path) newName)]
       else [])
    ∧ (CADFileBrowser.delete_item fs path reply r).signals =
      (if reply = MB.yes ∧ r = none then [Signal.file_deleted path]
       else []) := by
  refine ⟨?_, ?_, ?_⟩
  · cases r <;> cases ok <;> by_cases hn : name = "" <;>
      cases hex : fs.pathExists (pathJoin parent name) <;>
      simp [CADFileBrowser.create_new_file, hn, hex]
  · cases r <;> cases ok <;> by_cases hn : newName = "" <;>
      by_cases hd : newName = basename path <;>
      cases hex : fs.pathExists (pathJoin (dirname path) newName) <;>
      simp [CADFileBrowser.rename_item, hn, hd, hex]
  · cases r <;> cases reply <;> simp [CADFileBrowser.delete_item]

/-- C8: `set_root_path` on a nonexistent path only logs an error: the
browser state (current path, model root, watched directories) is unchanged
and no `directory_changed` signal is emitted. -/
theorem set_root_path_nonexistent (fs : FileSystem)
    (st : CADFileBrowser.BrowserState) (path : String)
    (h : fs.pathExists path = false) :
    CADFileBrowser.set_root_path fs st path =
      (st, [], ["Path does not exist: " ++ path]) := by
  simp [CADFileBrowser.set_root_path, h]

/-- Witness for the nonexistent-root theorem at a concrete state. -/
theorem set_root_path_nonexistent_witness :
    (FileSystem.mk ["proj/a.stp"] ["proj"]).pathExists "ghost" = false
    ∧ CADFileBrowser.set_root_path (FileSystem.mk ["proj/a.stp"] ["proj"])
        (CADFileBrowser.BrowserState.mk (some "proj") (some "proj") ["proj"])
        "ghost" =
      (CADFileBrowser.BrowserState.mk (some "proj") (some "proj") ["proj"],
        [], ["Path does not exist: " ++ "ghost"]) :=
  ⟨by decide,
    set_root_path_nonexistent (FileSystem.mk ["proj/a.stp"] ["proj"])
      (CADFileBrowser.BrowserState.mk (some "proj") (some "proj") ["proj"])
      "ghost" (by decide)⟩

/-- C9: the delete confirmation dialog offers Yes/No with default `No`, and
answering `No` leaves the file system unchanged, attempts no OS call, and
emits no `file_deleted` signal (with `MB` two-valued, any answer other than
an explicit `Yes` is `No`). -/
theorem delete_item_requires_yes (fs : FileSystem) (path : String)
    (r : Option String) :
    (CADFileBrowser.deleteQuestion fs path).defaultButton = MB.no
    ∧ (CADFileBrowser.deleteQuestion fs path).buttons = [MB.yes, MB.no]
    ∧ CADFileBrowser.delete_item fs path MB.no r =
      OpResult.mk fs
        [Dialog.question (CADFileBrowser.deleteQuestion fs path)] [] []
        none := by
  refine ⟨rfl, rfl, ?_⟩
  simp [CADFileBrowser.delete_item]

/-- C10: `_create_new_folder` emits no signal on any input (in particular
no `file_created` on success), while `_create_new_file` emits
`file_created` exactly on success. -/
theorem folder_creation_emits_nothing (fs : FileSystem)
    (parent name : String) (ok : Bool) (r : Option String) :
    (CADFileBrowser.create_new_folder fs parent name ok r).signals = []
    ∧ (CADFileBrowser.create_new_file fs parent name ok r).signals =
      (if ok = true ∧ name ≠ ""
          ∧ fs.pathExists (pathJoin parent name) = false ∧ r = none
       then [Signal.file_created (pathJoin parent name)] else []) := by
  constructor
  · cases r <;> cases ok <;> by_cases hn : name = "" <;>
      cases hex : fs.pathExists (pathJoin parent name) <;>
      simp [CADFileBrowser.create_new_folder, hn, hex]
  · cases r <;> cases ok <;> by_cases hn : name = "" <;>
      cases hex : fs.pathExists (pathJoin parent name) <;>
      simp [CADFileBrowser.create_new_file, hn, hex]
